import Mathlib

/-!
Verification development for the WeaR-emu guest execution substrate.

Shallow embedding of the core subsystems of the repository:
guest memory (`src/Core/WeaR_Memory.h`), the x86-64 interpreter
(`src/Core/WeaR_Cpu.cpp`), the syscall dispatcher (`WeaR_Syscalls.cpp`),
the internal BIOS payload (`WeaR_InternalBios.h`), the PM4 command-buffer
parser (`src/HLE/Graphics/WeaR_GnmDriver.cpp`), the render queue
(`src/Graphics/WeaR_RenderQueue.cpp`), the virtual file system
(`src/HLE/FileSystem/WeaR_VFS.cpp`) and the package loader
(`src/Loader/WeaR_PkgLoader.cpp`).

Conventions of the embedding:
* machine integers are `Nat` with explicit `% 2^w` where wrap-around matters
  (`x & (2^33 - 1)` in the source is written `x % 2^33`);
* C++ code that throws (`MemoryAccessException`) is embedded with `Option`
  (`none` = an exception was thrown at that point);
* mutexes are erased: every operation is modelled with its sequential
  (single-thread) semantics;
* output to `std::cout` / the logger is modelled as a list of abstract
  `LogEntry` values where a claim depends on it, and erased elsewhere.
-/

namespace WeaRemu

/-! ## Guest memory — `src/Core/WeaR_Memory.h`, `WeaR_System.h` (WeaR_Memory.cpp part) -/

/-- Source `PS4Memory::MEMORY_SIZE = 8ULL * 1024 * 1024 * 1024` (8 GiB = 2^33). -/
def MEMORY_SIZE : Nat := 8 * 1024 * 1024 * 1024

/-- Source `PS4Memory::Region::USER_BASE = 0x400000`. -/
def USER_BASE : Nat := 0x400000

/-- Source `PS4Memory::Region::HEAP_BASE = 0x200000000`. -/
def HEAP_BASE : Nat := 0x200000000

/-- Source `PS4Memory::Region::STACK_TOP = 0x00007FFFFFFFF000`. -/
def STACK_TOP : Nat := 0x00007FFFFFFFF000

/-- The 8 GiB arena: a byte for every physical offset.  `VirtualAlloc`
with `MEM_COMMIT` zero-fills, so a fresh arena is the all-zero function. -/
structure Mem where
  data : Nat → Nat

/-- The zero-initialized arena produced by `WeaR_Memory::allocateMemory`. -/
def Mem.zeroed : Mem := ⟨fun _ => 0⟩

/-- Source `WeaR_Memory::translateAddress`: subtract `USER_BASE` for user-space
addresses, then mask with `PHYSICAL_MASK = MEMORY_SIZE - 1`, i.e. reduce
`% 2^33`. -/
def translateAddress (virtualAddress : Nat) : Nat :=
  if virtualAddress ≥ USER_BASE then
    (virtualAddress - USER_BASE) % MEMORY_SIZE
  else
    virtualAddress % MEMORY_SIZE

/-- Source `WeaR_Memory::validateAccess` succeeds iff `physicalAddr + size`
stays within the arena (otherwise it throws `OutOfBounds`). -/
def validAccess (physicalAddr size : Nat) : Bool :=
  physicalAddr + size ≤ MEMORY_SIZE

/-- Source `read<uint8_t>`: translate, bounds-check, dereference one byte. -/
def Mem.read8 (m : Mem) (va : Nat) : Option Nat :=
  let p := translateAddress va
  if validAccess p 1 then some (m.data p % 256) else none

/-- Source `read<uint32_t>` (little-endian byte assembly). -/
def Mem.read32 (m : Mem) (va : Nat) : Option Nat :=
  let p := translateAddress va
  if validAccess p 4 then
    some (m.data p % 256 + 256 * (m.data (p+1) % 256) +
          256^2 * (m.data (p+2) % 256) + 256^3 * (m.data (p+3) % 256))
  else none

/-- Source `read<uint64_t>` (little-endian byte assembly). -/
def Mem.read64 (m : Mem) (va : Nat) : Option Nat :=
  let p := translateAddress va
  if validAccess p 8 then
    some (List.sum ((List.range 8).map fun i => 256^i * (m.data (p+i) % 256)))
  else none

/-- Source `write<uint8_t>`. -/
def Mem.write8 (m : Mem) (va v : Nat) : Option Mem :=
  let p := translateAddress va
  if validAccess p 1 then
    some ⟨fun q => if q = p then v % 256 else m.data q⟩
  else none

/-- Source `write<uint32_t>`: store the four little-endian bytes of `v % 2^32`. -/
def Mem.write32 (m : Mem) (va v : Nat) : Option Mem :=
  let p := translateAddress va
  if validAccess p 4 then
    some ⟨fun q => if p ≤ q ∧ q < p + 4 then (v / 256^(q - p)) % 256 else m.data q⟩
  else none

/-- Source `write<uint64_t>`: store the eight little-endian bytes of `v % 2^64`. -/
def Mem.write64 (m : Mem) (va v : Nat) : Option Mem :=
  let p := translateAddress va
  if validAccess p 8 then
    some ⟨fun q => if p ≤ q ∧ q < p + 8 then (v / 256^(q - p)) % 256 else m.data q⟩
  else none

/-- Source `WeaR_Memory::readBlock`: size-0 reads return immediately; otherwise
translate once and `memcpy` `size` raw bytes out of the arena. -/
def Mem.readBlock (m : Mem) (va size : Nat) : Option (List Nat) :=
  if size = 0 then some []
  else
    let p := translateAddress va
    if validAccess p size then
      some ((List.range size).map fun i => m.data (p + i))
    else none

/-- Source `WeaR_Memory::writeBlock`: empty writes return immediately; otherwise
translate once and `memcpy` the raw bytes into the arena. -/
def Mem.writeBlock (m : Mem) (va : Nat) (src : List Nat) : Option Mem :=
  if src = [] then some m
  else
    let p := translateAddress va
    if validAccess p src.length then
      some ⟨fun q => if p ≤ q ∧ q < p + src.length then src.getD (q - p) 0 else m.data q⟩
    else none

/-! ### Block round-trip (claim C10) -/

theorem translateAddress_le (a len : Nat) (h : a + len ≤ MEMORY_SIZE) :
    translateAddress a + len ≤ MEMORY_SIZE := by
  unfold translateAddress
  split
  · have h1 : a - USER_BASE ≤ a := Nat.sub_le _ _
    have h2 : (a - USER_BASE) % MEMORY_SIZE ≤ a - USER_BASE :=
      Nat.mod_le _ _
    omega
  · have h2 : a % MEMORY_SIZE ≤ a := Nat.mod_le _ _
    omega

theorem writeBlock_readBlock (m : Mem) (a : Nat) (b : List Nat)
    (h : translateAddress a + b.length ≤ MEMORY_SIZE) :
    ((m.writeBlock a b).bind fun m' => m'.readBlock a b.length) = some b := by
  by_cases hb : b = []
  · subst hb; simp [Mem.writeBlock, Mem.readBlock]
  · have hlen : b.length ≠ 0 := by simpa using hb
    have hval : validAccess (translateAddress a) b.length = true := by
      simpa [validAccess] using h
    unfold Mem.writeBlock Mem.readBlock
    simp only [if_neg hb, hval, if_true, if_neg hlen, Option.some_bind,
      Option.some.injEq]
    apply List.ext_getElem
    · simp
    · intro i h1 h2
      simp only [List.getElem_map, List.getElem_range]
      rw [if_pos (by omega), Nat.add_sub_cancel_left, List.getD_eq_getElem]

/-! ## Render command queue — `src/Graphics/WeaR_RenderQueue.{h,cpp}` -/

/-- Source `RenderCmdType` from `WeaR_RenderQueue.h`. -/
inductive RenderCmdType where
  | noCmd
  | clear
  | setPipeline
  | bindVertexBuffer
  | bindIndexBuffer
  | draw
  | drawIndexed
  | drawAuto
  | computeDispatch
  | endFrame
deriving DecidableEq, Repr

/-- Source `WeaR_DrawCmd` (the fields the PM4 handlers touch; the clear/pipeline
fields are never written by the parser and are omitted). -/
structure WeaR_DrawCmd where
  type : RenderCmdType := .noCmd
  vertexCount : Nat := 0
  indexCount : Nat := 0
  instanceCount : Nat := 1
  indexBufferAddr : Nat := 0
  indexType : Nat := 0
  groupCountX : Nat := 0
  groupCountY : Nat := 0
  groupCountZ : Nat := 0
deriving DecidableEq, Repr

/-- The queue's `std::deque` contents (the mutex and condition variable are
erased; telemetry counters are not needed by any claim). -/
abbrev RenderQueue := List WeaR_DrawCmd

/-- Source `WeaR_RenderQueue::push` (single command): `push_back`. -/
def renderQueuePush (q : RenderQueue) (cmd : WeaR_DrawCmd) : RenderQueue :=
  q ++ [cmd]

/-- Source `WeaR_RenderQueue::size`. -/
def renderQueueSize (q : RenderQueue) : Nat :=
  q.length

/-! ## PM4 parser — `src/HLE/Graphics/WeaR_GnmDriver.cpp`, `PM4_Packets.h` -/

/-- Source `PM4::PacketHeader::type` = bits 31..30. -/
def pm4Type (raw : Nat) : Nat := (raw / 2^30) % 4

/-- Source `PM4::PacketHeader::count` = bits 29..16. -/
def pm4Count (raw : Nat) : Nat := (raw / 2^16) % 2^14

/-- Source `PM4::PacketHeader::opcode` = bits 15..8. -/
def pm4Opcode (raw : Nat) : Nat := (raw / 2^8) % 2^8

/-- Source `PM4::PacketHeader::payloadSize` = `count() + 1`. -/
def pm4PayloadSize (raw : Nat) : Nat := pm4Count raw + 1

/-- Source `GpuState` from `WeaR_GnmDriver.h` (the fields the packet handlers
read or write; the vertex/render-target arrays and viewport floats are
never touched by the parser and are omitted). -/
structure GpuState where
  indexBufferAddr : Nat := 0
  indexType : Nat := 0
  primitiveType : Nat := 4
  instanceCount : Nat := 1
deriving DecidableEq, Repr

/-- Result of a command-buffer parse.  `fault` is a propagating
`MemoryAccessException`; `fuelOut` means the parse did not finish within
the given fuel (the C++ has no such bound — `∀ fuel, … = fuelOut` means
the source recursion never terminates). -/
inductive PcbResult where
  | ok (g : GpuState) (q : RenderQueue)
  | fault
  | fuelOut
deriving DecidableEq, Repr

/-- Read the `payloadCount` words of a packet payload
(`mem.read<uint32_t>(bufferAddr + (offset + i) * 4)`). -/
def readPayload (mem : Mem) (bufferAddr offset n : Nat) : Option (List Nat) :=
  (List.range n).mapM fun i => mem.read32 (bufferAddr + (offset + i) * 4)

/-- One `while` iteration of `WeaR_GnmDriver::processCommandBuffer`,
including every opcode handler.  `recur buf size off g q` stands for both
the next loop iteration (same buffer, advanced offset) and the
`INDIRECT_BUFFER` recursion (nested buffer, offset 0); the fuel wrapper
`pcbAux` below ties the knot. -/
def pcbGo (recur : Nat → Nat → Nat → GpuState → RenderQueue → PcbResult)
    (mem : Mem) (bufferAddr sizeInDwords offset : Nat)
    (g : GpuState) (q : RenderQueue) : PcbResult :=
  if offset < sizeInDwords then
    match mem.read32 (bufferAddr + offset * 4) with
    | none => .fault
    | some raw =>
      let offset := offset + 1
      if pm4Type raw ≠ 3 then
        -- non-Type3 packet: skip (advance one word)
        recur bufferAddr sizeInDwords offset g q
      else
        let pc := pm4PayloadSize raw
        if sizeInDwords < offset + pc then
          .ok g q   -- "PM4: Packet overflow" → break
        else
          match readPayload mem bufferAddr offset pc with
          | none => .fault
          | some payload =>
            let op := pm4Opcode raw
            let next := fun (g' : GpuState) (q' : RenderQueue) =>
              recur bufferAddr sizeInDwords (offset + pc) g' q'
            if op = 0x2D then          -- IT_DRAW_INDEX_AUTO
              if pc < 2 then next g q
              else
                next g (renderQueuePush q
                  { type := .drawAuto,
                    vertexCount := payload.getD 0 0,
                    instanceCount := g.instanceCount })
            else if op = 0x27 then     -- IT_DRAW_INDEX_2
              if pc < 4 then next g q
              else
                let iba := payload.getD 1 0 + 2^32 * payload.getD 2 0
                next { g with indexBufferAddr := iba }
                  (renderQueuePush q
                    { type := .drawIndexed,
                      indexCount := payload.getD 3 0,
                      indexBufferAddr := iba,
                      instanceCount := g.instanceCount,
                      indexType := g.indexType })
            else if op = 0x15 then     -- IT_DISPATCH_DIRECT
              if pc < 4 then next g q
              else
                next g (renderQueuePush q
                  { type := .computeDispatch,
                    groupCountX := payload.getD 0 0,
                    groupCountY := payload.getD 1 0,
                    groupCountZ := payload.getD 2 0 })
            else if op = 0x2A then     -- IT_INDEX_TYPE
              if pc < 1 then next g q
              else next { g with indexType := payload.getD 0 0 % 4 } q
            else if op = 0x2F then     -- IT_NUM_INSTANCES
              if pc < 1 then next g q
              else next { g with instanceCount := payload.getD 0 0 } q
            else if op = 0x3F then     -- IT_INDIRECT_BUFFER
              if pc < 3 then next g q
              else
                let nestedAddr := payload.getD 0 0 +
                  2^32 * (payload.getD 1 0 % 2^16)
                let nestedSize := payload.getD 2 0 % 2^20
                match recur nestedAddr nestedSize 0 g q with
                | .ok g' q' => next g' q'
                | r => r
            else
              -- IT_NOP, SET_*_REG, EVENT_WRITE(+EOP), ACQUIRE_MEM,
              -- RELEASE_MEM and unhandled opcodes: log only, no state
              next g q
  else
    .ok g q

/-- Fuel-indexed tying of `pcbGo`'s knot: one unit of fuel per loop
iteration and per `INDIRECT_BUFFER` recursion.  The C++ source carries
no such bound, so `∀ fuel, … = fuelOut` states that the source recursion
never finishes. -/
def pcbAux : Nat → Mem → Nat → Nat → Nat → GpuState → RenderQueue → PcbResult
  | 0, _, _, _, _, _, _ => .fuelOut
  | fuel + 1, mem, bufferAddr, sizeInDwords, offset, g, q =>
    pcbGo (pcbAux fuel mem) mem bufferAddr sizeInDwords offset g q

/-- Source `WeaR_GnmDriver::processCommandBuffer` (starts at offset 0). -/
def processCommandBuffer (fuel : Nat) (mem : Mem)
    (bufferAddr sizeInDwords : Nat) (g : GpuState) (q : RenderQueue) :
    PcbResult :=
  pcbAux fuel mem bufferAddr sizeInDwords 0 g q

/-! ## Integer casts used by the interpreter and the dispatcher -/

/-- Source `static_cast<uint64_t>` of a signed 64-bit value (two's complement). -/
def u64ofInt (i : Int) : Nat := (i % (2^64 : Int)).toNat

/-- Source `static_cast<int64_t>` of a `uint64_t` (two's complement). -/
def i64ofU64 (n : Nat) : Int :=
  if n % 2^64 < 2^63 then ((n % 2^64 : Nat) : Int)
  else ((n % 2^64 : Nat) : Int) - 2^64

/-- Source `static_cast<int32_t>` of a `uint32_t` (two's complement sign extension). -/
def sext32 (d : Nat) : Int :=
  if d % 2^32 < 2^31 then ((d % 2^32 : Nat) : Int)
  else ((d % 2^32 : Nat) : Int) - 2^32

/-! ## CPU context — `src/Core/WeaR_Cpu.h` (`WeaR_Context`)

The source declares the sixteen GPRs as an anonymous `struct` of named
`uint64_t` fields `RAX, RBX, RCX, RDX, RSI, RDI, RBP, RSP, R8..R15`
placed in a `union` with `std::array<uint64_t, 16> GPR`, so `GPR[i]`
aliases the `i`-th field **in that declaration order**.  The embedding
keeps `GPR` as the primitive and defines each named register as the
accessor for its declaration index. -/

structure WeaR_Context where
  GPR : Nat → Nat    -- indices 0..15 back the 16-element array
  RIP : Nat
  RFLAGS : Nat

def WeaR_Context.RAX (c : WeaR_Context) : Nat := c.GPR 0
def WeaR_Context.RBX (c : WeaR_Context) : Nat := c.GPR 1
def WeaR_Context.RCX (c : WeaR_Context) : Nat := c.GPR 2
def WeaR_Context.RDX (c : WeaR_Context) : Nat := c.GPR 3
def WeaR_Context.RSI (c : WeaR_Context) : Nat := c.GPR 4
def WeaR_Context.RDI (c : WeaR_Context) : Nat := c.GPR 5
def WeaR_Context.RBP (c : WeaR_Context) : Nat := c.GPR 6
def WeaR_Context.RSP (c : WeaR_Context) : Nat := c.GPR 7
def WeaR_Context.R8 (c : WeaR_Context) : Nat := c.GPR 8
def WeaR_Context.R9 (c : WeaR_Context) : Nat := c.GPR 9
def WeaR_Context.R10 (c : WeaR_Context) : Nat := c.GPR 10

/-- Store `v` (reduced to 64 bits) in `GPR[i]`. -/
def WeaR_Context.setGPR (c : WeaR_Context) (i v : Nat) : WeaR_Context :=
  { c with GPR := fun j => if j = i then v % 2^64 else c.GPR j }

/-- Source `WeaR_Context::reset`: all GPRs zero, `RIP = 0`, `RFLAGS = 0x202`. -/
def WeaR_Context.reset : WeaR_Context :=
  { GPR := fun _ => 0, RIP := 0, RFLAGS := 0x202 }

/-- Source `CpuState` from `WeaR_Cpu.h`. -/
inductive CpuState where
  | stopped
  | running
  | paused
  | halted
  | faulted
deriving DecidableEq, Repr

/-! ## Syscall dispatcher — `WeaR_Syscalls.h` / `part_006`

Log messages are abstracted to `LogEntry` values carrying the data that
the corresponding `std::format` call interpolates. -/

inductive LogEntry where
  | unimplemented (num : Nat)          -- "Unimplemented syscall: … (num)"
  | handlerFailed (num : Nat)          -- "{name}: {error}" when !success
  | sysExitLog (status : Nat)          -- "sys_exit(status=…)"
  | fdWriteLog (fd : Nat) (text : List Nat)  -- "[fd{fd}] {text}"
  | mmapLog (addr len result : Nat)    -- "sys_mmap(addr=…, len=…) -> …"
  | debugOutLog (text : List Nat)      -- "[DEBUG] {text}"
  | loadStartModuleLog (path : List Nat)  -- "LoadStartModule: {path}"
  | submitCbLog (count : Nat)          -- "sceGnmSubmitCommandBuffers: count=…"
  | submitDoneLog                      -- "sceGnmSubmitDone"
deriving DecidableEq, Repr

/-- Source `SyscallResult` (the `error` string is irrelevant to every claim and
is dropped; a failure is still visible through `success = false`). -/
structure SyscallResult where
  value : Int
  success : Bool
deriving DecidableEq, Repr

/-- The dispatcher's mutable state: the two counters, the log sink, the
function-local `static` variables of the `sys_mmap` and
`sceKernelLoadStartModule` handlers, and the GNM driver state plus global
render queue reached from the `sceGnmSubmitCommandBuffers` handler. -/
structure DispatchState where
  totalCalls : Nat := 0
  unimplementedCalls : Nat := 0
  logLines : List LogEntry := []
  nextAlloc : Nat := HEAP_BASE
  nextModuleId : Nat := 100
  gnm : GpuState := {}
  rq : RenderQueue := []

def DispatchState.init : DispatchState := {}

def pushLog (st : DispatchState) (e : LogEntry) : DispatchState :=
  { st with logLines := st.logLines ++ [e] }

/-- Outcome of one HLE handler.  `thrown` models a C++ exception escaping
the handler (it propagates through `dispatch` into `WeaR_Cpu::step`'s
catch block); the partially mutated state is retained.  `fuelOut` can
only arise from the PM4 parser inside `sceGnmSubmitCommandBuffers`. -/
inductive HleOut where
  | ok (r : SyscallResult) (ctx : WeaR_Context) (mem : Mem) (st : DispatchState)
  | thrown (ctx : WeaR_Context) (mem : Mem) (st : DispatchState)
  | fuelOut

/-- Source `HleFunction`: `(ctx, mem, rdi, rsi, rdx, r10, r8, r9) → SyscallResult`
(plus the dispatcher-state effects the handlers have). -/
def HleFunction :=
  WeaR_Context → Mem → DispatchState →
  Nat → Nat → Nat → Nat → Nat → Nat → HleOut

/-- The byte-collecting loops in the string-reading handlers:
read up to `maxLen` bytes, stop at the first NUL; `none` models the
`catch (...)` branch (a read threw). -/
def readCString (m : Mem) (addr : Nat) : Nat → Option (List Nat)
  | 0 => some []
  | maxLen + 1 =>
    match m.read8 addr with
    | none => none
    | some 0 => some []
    | some c => (readCString m (addr + 1) maxLen).map (c :: ·)

/-- Source `sys_exit` (1). -/
def hleSysExit : HleFunction := fun ctx mem st rdi _ _ _ _ _ =>
  let st := pushLog st (.sysExitLog rdi)
  .ok ⟨0, true⟩ (ctx.setGPR 0 0) mem st

/-- Source `sys_write` (4): read up to `min count 4096` bytes up to NUL;
log to the kernel console when `fd` is 1 or 2; return the byte count. -/
def hleSysWrite : HleFunction := fun ctx mem st fd buf count _ _ _ =>
  match readCString mem buf (min count 4096) with
  | none => .ok ⟨-14, false⟩ ctx mem st    -- "EFAULT: Bad address"
  | some output =>
    let st := if fd = 1 ∨ fd = 2 then pushLog st (.fdWriteLog fd output) else st
    .ok ⟨(output.length : Int), true⟩ ctx mem st

/-- Source `sys_mmap` (477): bump allocator over `HEAP_BASE` kept in a
function-local static (`DispatchState.nextAlloc`). -/
def hleSysMmap : HleFunction := fun ctx mem st addr length _ _ _ _ =>
  let allocAddr := if addr ≠ 0 then addr else st.nextAlloc
  let alignedLen := (length + 0xFFF) % 2^64 / 0x1000 * 0x1000
  let st := { st with nextAlloc := (st.nextAlloc + alignedLen) % 2^64 }
  let st := pushLog st (.mmapLog addr length allocAddr)
  .ok ⟨i64ofU64 allocAddr, true⟩ ctx mem st

/-- Source `sys_getpid` (20). -/
def hleSysGetpid : HleFunction := fun ctx mem st _ _ _ _ _ _ =>
  .ok ⟨1000, true⟩ ctx mem st

/-- Source `sys_getuid` (24). -/
def hleSysGetuid : HleFunction := fun ctx mem st _ _ _ _ _ _ =>
  .ok ⟨0, true⟩ ctx mem st

/-- Source `sceKernelDebugOut` (602). -/
def hleDebugOut : HleFunction := fun ctx mem st msgPtr _ _ _ _ _ =>
  match readCString mem msgPtr 1024 with
  | none => .ok ⟨-14, false⟩ ctx mem st
  | some message => .ok ⟨0, true⟩ ctx mem (pushLog st (.debugOutLog message))

/-- Source `sceKernelIsNeoMode` (618). -/
def hleIsNeoMode : HleFunction := fun ctx mem st _ _ _ _ _ _ =>
  .ok ⟨1, true⟩ ctx mem st

/-- Source `sceKernelGetCpuTemperature` (621): the `write<uint32_t>` is not in a
try block, so a fault escapes the handler. -/
def hleCpuTemperature : HleFunction := fun ctx mem st tempPtr _ _ _ _ _ =>
  if tempPtr ≠ 0 then
    match mem.write32 tempPtr 45 with
    | none => .thrown ctx mem st
    | some mem' => .ok ⟨0, true⟩ ctx mem' st
  else .ok ⟨0, true⟩ ctx mem st

/-- Source `sceKernelLoadStartModule` (594). -/
def hleLoadStartModule : HleFunction := fun ctx mem st pathPtr _ _ _ _ _ =>
  match readCString mem pathPtr 256 with
  | none => .ok ⟨-1, false⟩ ctx mem st
  | some path =>
    let st := pushLog st (.loadStartModuleLog path)
    let r := st.nextModuleId
    .ok ⟨(r : Int), true⟩ ctx mem { st with nextModuleId := r + 1 }

/-- Outcome of `WeaR_GnmDriver::handleSubmitCommandBuffers`'s loop. -/
inductive SubmitOut where
  | ok (g : GpuState) (q : RenderQueue)
  | thrown (g : GpuState) (q : RenderQueue)
  | fuelOut

/-- The `for` loop of `handleSubmitCommandBuffers`: read
`(bufferAddr, sizeInBytes)` pairs and parse each buffer. -/
def submitLoop (fuel : Nat) (mem : Mem) (cmdBuffersPtr sizesPtr count : Nat)
    (i : Nat) (g : GpuState) (q : RenderQueue) : SubmitOut :=
  if _h : i < count then
    match mem.read64 (cmdBuffersPtr + i * 8) with
    | none => .thrown g q
    | some bufferAddr =>
      match mem.read32 (sizesPtr + i * 4) with
      | none => .thrown g q
      | some sizeInBytes =>
        match processCommandBuffer fuel mem bufferAddr (sizeInBytes / 4) g q with
        | .ok g' q' => submitLoop fuel mem cmdBuffersPtr sizesPtr count (i + 1) g' q'
        | .fault => .thrown g q
        | .fuelOut => .fuelOut
  else .ok g q
termination_by count - i

/-- Source `sceGnmSubmitCommandBuffers` (591). -/
def hleGnmSubmit (fuel : Nat) : HleFunction := fun ctx mem st count cmdPtr sizesPtr _ _ _ =>
  let st := pushLog st (.submitCbLog count)
  match submitLoop fuel mem cmdPtr sizesPtr (count % 2^32) 0 st.gnm st.rq with
  | .ok g q => .ok ⟨0, true⟩ ctx mem { st with gnm := g, rq := q }
  | .thrown g q => .thrown ctx mem { st with gnm := g, rq := q }
  | .fuelOut => .fuelOut

/-- Source `sceGnmSubmitDone` (614). -/
def hleGnmSubmitDone : HleFunction := fun ctx mem st _ _ _ _ _ _ =>
  .ok ⟨0, true⟩ ctx mem (pushLog st .submitDoneLog)

/-- Source `sceGnmGetGpuCoreClockFrequency` (626). -/
def hleGnmGpuClock : HleFunction := fun ctx mem st _ _ _ _ _ _ =>
  .ok ⟨911, true⟩ ctx mem st

/-- The handler table built by `WeaR_Syscalls::registerDefaultHandlers`.
The `registerLibFSHandlers` / `registerLibPadHandlers` /
`registerLibAudioHandlers` functions in `WeaR_LibFS.cpp` and
`WeaR_LibAudio.cpp` have no caller anywhere in the repository, so these
twelve numbers are the complete map. -/
def defaultHandlers (fuel : Nat) : Nat → Option HleFunction
  | 1 => some hleSysExit
  | 4 => some hleSysWrite
  | 477 => some hleSysMmap
  | 20 => some hleSysGetpid
  | 24 => some hleSysGetuid
  | 602 => some hleDebugOut
  | 618 => some hleIsNeoMode
  | 621 => some hleCpuTemperature
  | 594 => some hleLoadStartModule
  | 591 => some (hleGnmSubmit fuel)
  | 614 => some hleGnmSubmitDone
  | 626 => some hleGnmGpuClock
  | _ => none

/-- Outcome of `WeaR_Syscalls::dispatch`. -/
inductive DOut where
  | ok (ctx : WeaR_Context) (mem : Mem) (st : DispatchState)
  | thrown (ctx : WeaR_Context) (mem : Mem) (st : DispatchState)
  | fuelOut

/-- Source `WeaR_Syscalls::dispatch`: number in `RAX`, arguments from the
`RDI, RSI, RDX, R10, R8, R9` *fields* of the context; on return the
handler's value is written to `RAX`; a missing handler increments the
unimplemented counter, logs, and writes `0` to `RAX`. -/
def dispatch (fuel : Nat) (st : DispatchState) (ctx : WeaR_Context)
    (mem : Mem) : DOut :=
  let st := { st with totalCalls := st.totalCalls + 1 }
  let syscallNum := ctx.RAX
  let rdi := ctx.RDI
  let rsi := ctx.RSI
  let rdx := ctx.RDX
  let r10 := ctx.R10
  let r8 := ctx.R8
  let r9 := ctx.R9
  match defaultHandlers fuel syscallNum with
  | some h =>
    match h ctx mem st rdi rsi rdx r10 r8 r9 with
    | .ok result ctx' mem' st' =>
      let ctx'' := ctx'.setGPR 0 (u64ofInt result.value)
      let st'' := if result.success then st'
                  else pushLog st' (.handlerFailed syscallNum)
      .ok ctx'' mem' st''
    | .thrown c me s => .thrown c me s
    | .fuelOut => .fuelOut
  | none =>
    let st := { st with unimplementedCalls := st.unimplementedCalls + 1 }
    let st := pushLog st (.unimplemented syscallNum)
    .ok (ctx.setGPR 0 0) mem st

/-! ## CPU interpreter — `src/Core/WeaR_Cpu.cpp` -/

/-- The whole machine configuration touched by `WeaR_Cpu::step` with the
syscall handler wired to the dispatcher (as `WeaR_EmulatorCore::initialize`
does). -/
structure Machine where
  cpu : CpuState
  ctx : WeaR_Context
  mem : Mem
  dsp : DispatchState

/-- Result of one `step` call.  `fuelOut` propagates the modelling fuel
of the PM4 parser; no claim's run ever produces it. -/
inductive StepRes where
  | ok (m : Machine) (cycles : Nat)
  | fuelOut

/-- The opcode `switch` of `WeaR_Cpu::step` together with the
`exec*` instruction bodies.  A `none` from a memory access models the
`MemoryAccessException` caught at the bottom of `step` (state becomes
`Faulted`, the partial context mutations made before the throw persist,
and 0 cycles are returned). -/
def execOpcode (fuel : Nat) (m : Machine) (op : Nat) (hasREX : Bool)
    (rex : Nat) : StepRes :=
  if op = 0x90 then
    .ok m 1                               -- NOP
  else if op = 0xC3 then                  -- RET
    match m.mem.read64 m.ctx.RSP with
    | none => .ok { m with cpu := .faulted } 0
    | some retAddr =>
      let ctx := m.ctx.setGPR 7 (m.ctx.RSP + 8)
      .ok { m with ctx := { ctx with RIP := retAddr } } 1
  else if op = 0xE9 then                  -- JMP rel32
    match m.mem.read32 m.ctx.RIP with
    | none => .ok { m with cpu := .faulted } 0
    | some d =>
      let ctx := { m.ctx with RIP := (m.ctx.RIP + 4) % 2^64 }
      .ok { m with ctx :=
        { ctx with RIP := u64ofInt ((ctx.RIP : Int) + sext32 d) } } 1
  else if op = 0xE8 then                  -- CALL rel32
    match m.mem.read32 m.ctx.RIP with
    | none => .ok { m with cpu := .faulted } 0
    | some d =>
      let ctx := { m.ctx with RIP := (m.ctx.RIP + 4) % 2^64 }
      let ctx := ctx.setGPR 7 (ctx.RSP + 2^64 - 8)    -- RSP -= 8 (wrapping)
      match m.mem.write64 ctx.RSP ctx.RIP with
      | none => .ok { m with ctx := ctx, cpu := .faulted } 0
      | some mem' =>
        .ok { m with mem := mem', ctx :=
          { ctx with RIP := u64ofInt ((ctx.RIP : Int) + sext32 d) } } 1
  else if op = 0xF4 then                  -- HLT
    .ok { m with cpu := .halted } 0
  else if 0x50 ≤ op ∧ op ≤ 0x57 then      -- PUSH reg
    let reg := op - 0x50
    let ctx := m.ctx.setGPR 7 (m.ctx.RSP + 2^64 - 8)
    match m.mem.write64 ctx.RSP (ctx.GPR reg) with
    | none => .ok { m with ctx := ctx, cpu := .faulted } 0
    | some mem' => .ok { m with ctx := ctx, mem := mem' } 1
  else if 0x58 ≤ op ∧ op ≤ 0x5F then      -- POP reg
    let reg := op - 0x58
    match m.mem.read64 m.ctx.RSP with
    | none => .ok { m with cpu := .faulted } 0
    | some v =>
      let ctx := m.ctx.setGPR reg v
      let ctx := ctx.setGPR 7 (ctx.RSP + 8)
      .ok { m with ctx := ctx } 1
  else if 0xB8 ≤ op ∧ op ≤ 0xBF then      -- MOV reg, imm
    if hasREX ∧ rex / 8 % 2 = 1 then      -- REX.W set: imm64
      let reg := op - 0xB8 + (if rex % 2 = 1 then 8 else 0)  -- + REX.B
      match m.mem.read64 m.ctx.RIP with
      | none => .ok { m with cpu := .faulted } 0
      | some imm =>
        let ctx := { m.ctx with RIP := (m.ctx.RIP + 8) % 2^64 }
        let ctx := if reg < 16 then ctx.setGPR reg imm else ctx
        .ok { m with ctx := ctx } 1
    else                                  -- imm32, zero-extended
      let reg := op - 0xB8
      match m.mem.read32 m.ctx.RIP with
      | none => .ok { m with cpu := .faulted } 0
      | some imm =>
        let ctx := { m.ctx with RIP := (m.ctx.RIP + 4) % 2^64 }
        .ok { m with ctx := ctx.setGPR reg imm } 1
  else if op = 0x0F then                  -- two-byte opcodes
    match m.mem.read8 m.ctx.RIP with
    | none => .ok { m with cpu := .faulted } 0
    | some op2 =>
      let ctx := { m.ctx with RIP := (m.ctx.RIP + 1) % 2^64 }
      if op2 = 0x05 then                  -- SYSCALL
        match dispatch fuel m.dsp ctx m.mem with
        | .ok ctx' mem' st' =>
          .ok { m with ctx := ctx', mem := mem', dsp := st' } 1
        | .thrown ctx' mem' st' =>
          .ok { m with ctx := ctx', mem := mem', dsp := st',
                       cpu := .faulted } 0
        | .fuelOut => .fuelOut
      else
        .ok { m with ctx := ctx } 1       -- unknown: log and continue
  else
    .ok m 1                               -- unknown opcode: log and continue

/-- Source `WeaR_Cpu::step`: fetch one byte, consume an optional REX prefix
(`0x40..0x4F`), then decode.  Note the source performs **no check of the
execution state** before fetching. -/
def step (fuel : Nat) (m : Machine) : StepRes :=
  match m.mem.read8 m.ctx.RIP with
  | none => .ok { m with cpu := .faulted } 0
  | some opcode0 =>
    let ctx1 := { m.ctx with RIP := (m.ctx.RIP + 1) % 2^64 }
    if opcode0 / 16 = 4 then              -- (opcode & 0xF0) == 0x40: REX
      match m.mem.read8 ctx1.RIP with
      | none => .ok { m with ctx := ctx1, cpu := .faulted } 0
      | some op2 =>
        let ctx2 := { ctx1 with RIP := (ctx1.RIP + 1) % 2^64 }
        execOpcode fuel { m with ctx := ctx2 } op2 true opcode0
    else
      execOpcode fuel { m with ctx := ctx1 } opcode0 false 0

/-- Source `WeaR_EmulatorCore::cpuThreadMain`, bounded to `n` loop iterations:
while the running flag is set, sleep while the CPU state is `Paused`,
otherwise call `step` — **the returned cycle count is ignored**, the loop
does not break when `step` returns 0. -/
def cpuThreadSteps (fuel : Nat) : Nat → Machine → Option Machine
  | 0, m => some m
  | n + 1, m =>
    if m.cpu = .paused then cpuThreadSteps fuel n m
    else
      match step fuel m with
      | .ok m' _ => cpuThreadSteps fuel n m'
      | .fuelOut => none

/-! ## Internal BIOS — `WeaR_InternalBios.h` (`src/Input/WeaR_Input.cpp` part) -/

/-- Sequential `write<uint8_t>` of a list of bytes. -/
def writeBytes (m : Mem) (addr : Nat) : List Nat → Option Mem
  | [] => some m
  | b :: rest => (m.write8 addr b).bind fun m' => writeBytes m' (addr + 1) rest

/-- The bytes of `"WeaR-emu Internal BIOS v1.0\n"` (28 characters). -/
def bootMsgBytes : List Nat :=
  [87, 101, 97, 82, 45, 101, 109, 117, 32,
   73, 110, 116, 101, 114, 110, 97, 108, 32,
   66, 73, 79, 83, 32, 118, 49, 46, 48, 10]

/-- The little-endian bytes a `write<uint32_t>` stores. -/
def le32 (v : Nat) : List Nat :=
  [v % 256, v / 256 % 256, v / 256^2 % 256, v / 256^3 % 256]

/-- The little-endian bytes a `write<uint64_t>` stores. -/
def le64 (v : Nat) : List Nat :=
  le32 (v % 2^32) ++ le32 (v / 2^32 % 2^32)

/-- The program `InternalBios::load` assembles at `ENTRY_POINT`, one
list segment per source `write` call (the running `addr` cursor makes
the writes contiguous from `0x400000`, so the sequence of
`write<uint8_t>` / `write<uint32_t>` / `write<uint64_t>` calls stores
exactly this byte string). -/
def biosProgramBytes : List Nat :=
  [0x48, 0xC7, 0xC0] ++ le32 4 ++      -- MOV RAX, 4 (sys_write)
  [0x48, 0xC7, 0xC7] ++ le32 1 ++      -- MOV RDI, 1 (stdout)
  [0x48, 0xBE] ++ le64 0x400200 ++     -- MOV RSI, STRING_ADDR
  [0x48, 0xC7, 0xC2] ++ le32 28 ++     -- MOV RDX, strlen(bootMsg)
  [0x0F, 0x05] ++                      -- SYSCALL
  [0x48, 0xC7, 0xC0] ++ le32 495 ++    -- MOV RAX, 495 (sceAudioOutInit)
  [0x0F, 0x05] ++                      -- SYSCALL
  -- loopStart = ENTRY_POINT + 0x2A
  [0x48, 0xC7, 0xC0] ++ le32 571 ++    -- MOV RAX, 571 (scePadReadState)
  [0x48, 0xC7, 0xC7] ++ le32 0 ++      -- MOV RDI, 0
  [0x48, 0xBE] ++ le64 0x400300 ++     -- MOV RSI, 0x400300
  [0x0F, 0x05] ++                      -- SYSCALL
  [0xF3, 0x90] ++                      -- PAUSE
  [0xE9] ++ le32 (2^32 - 33)           -- JMP rel32 back to loopStart (-33)

/-- Source `InternalBios::load`: write the boot string at `STRING_ADDR =
0x400200` (with NUL terminator), the test program at `ENTRY_POINT =
0x400000`, initialize the context, and return the entry point. -/
def internalBiosLoad (mem : Mem) (ctx : WeaR_Context) :
    Option (Mem × WeaR_Context × Nat) :=
  (writeBytes mem 0x400200 (bootMsgBytes ++ [0])).bind fun mem =>
  (writeBytes mem 0x400000 biosProgramBytes).map fun mem =>
    -- context initialization (RSP/RBP are the fields at GPR indices 7/6)
    let ctx := { ctx with RIP := 0x400000, RFLAGS := 0x202 }
    let ctx := ctx.setGPR 7 (STACK_TOP - 0x1000)
    let ctx := ctx.setGPR 6 (ctx.RSP)
    -- clear RAX,RBX,RCX,RDX,RSI,RDI and R8..R15 (not RSP/RBP)
    let ctx := ((ctx.setGPR 0 0).setGPR 1 0).setGPR 2 0
    let ctx := ((ctx.setGPR 3 0).setGPR 4 0).setGPR 5 0
    let ctx := ((ctx.setGPR 8 0).setGPR 9 0).setGPR 10 0
    let ctx := ((ctx.setGPR 11 0).setGPR 12 0).setGPR 13 0
    let ctx := (ctx.setGPR 14 0).setGPR 15 0
    (mem, ctx, 0x400000)

/-- Source `initialize` + `loadInternalBios`: zeroed fresh arena, reset context
(the `WeaR_Cpu` constructor calls `reset`), BIOS image loaded. -/
def biosBoot : Option (Mem × WeaR_Context × Nat) :=
  internalBiosLoad Mem.zeroed WeaR_Context.reset

/-- The machine state right after `run()` spawns the CPU thread.  (Note
`cpuThreadMain` never stores `CpuState::Running`; the interpreter state
stays `Stopped` on this path, which `step` never inspects anyway.) -/
def biosMachine : Machine :=
  match biosBoot with
  | some (mem, ctx, _) =>
    { cpu := .stopped, ctx := ctx, mem := mem, dsp := .init }
  | none =>
    { cpu := .faulted, ctx := .reset, mem := .zeroed, dsp := .init }

/-- Projection for stating facts about a `step` outcome. -/
def StepRes.machine : StepRes → Option Machine
  | .ok m _ => some m
  | .fuelOut => none

/-- Cycle count of a `step` outcome. -/
def StepRes.cycles : StepRes → Option Nat
  | .ok _ c => some c
  | .fuelOut => none

/-- Projection for stating facts about a `dispatch` outcome. -/
def DOut.dspState : DOut → Option DispatchState
  | .ok _ _ st => some st
  | .thrown _ _ st => some st
  | .fuelOut => none

/-! ## Virtual file system — `src/HLE/FileSystem/WeaR_VFS.{h,cpp}`

Guest path strings are `List Char`; host `std::filesystem::path` values
are component lists (`List (List Char)`), the empty list being the empty
path the source uses as its failure value.  Mount tables keep the
`std::map` iteration order (sorted by key; the concrete tables below are
sorted).  Mutexes are erased.  The host filesystem is symlink-free, so
`std::filesystem::weakly_canonical` is lexical normalization, and mount
host roots are stored canonical (as `WeaR_VFS::mount` does). -/

abbrev HostPath := List (List Char)
abbrev MountTable := List (List Char × HostPath)

/-- Source `constexpr int32_t SCE_ERROR_ENOENT = 0x80020002` (as an `int32_t`
bit pattern, i.e. negative). -/
def SCE_ERROR_ENOENT : Int := sext32 0x80020002

/-- Source `constexpr int32_t SCE_ERROR_EACCES = 0x80020013`. -/
def SCE_ERROR_EACCES : Int := sext32 0x80020013

/-- Source `OpenFlags::O_CREAT`. -/
def O_CREAT : Nat := 0x0200

/-- Source `OpenFlags::O_DIRECTORY`. -/
def O_DIRECTORY : Nat := 0x00020000

/-- Source `WeaR_VFS::normalizePath`: backslashes to slashes, strip trailing
slashes, ensure a leading slash. -/
def normalizePath (path : List Char) : List Char :=
  let result := path.map fun c => if c = '\\' then '/' else c
  let result := (result.reverse.dropWhile (fun c => c = '/')).reverse
  if result = [] ∨ result.headD ' ' ≠ '/' then '/' :: result else result

/-- Source `normalized.find(mountPoint) == 0`: the mount string occurs at
position 0 of the normalized path. -/
def findAtZero (s pre : List Char) : Bool :=
  match s, pre with
  | _, [] => true
  | [], _ :: _ => false
  | c :: cs, p :: ps => c = p && findAtZero cs ps

/-- The best-match loop of `WeaR_VFS::resolvePath`: keep the matching
mount with the strictly greatest key length (`bestMatch` starts empty). -/
def selectMount (mounts : MountTable) (normalized : List Char) :
    List Char × HostPath :=
  mounts.foldl
    (fun acc mh =>
      if findAtZero normalized mh.1 ∧ acc.1.length < mh.1.length then mh
      else acc)
    ([], [])

/-- Source `relativePath = relativePath.substr(1)` when it starts with a slash. -/
def stripLeadingSlash : List Char → List Char
  | '/' :: rest => rest
  | l => l

/-- Source `std::filesystem::path` component parsing of a relative string
(split on slashes; empty segments do not survive normalization and are
dropped here). -/
def splitOnSlash (s : List Char) : HostPath :=
  let rec go : List Char → List Char → HostPath
    | [], acc => if acc = [] then [] else [acc.reverse]
    | '/' :: rest, acc =>
      if acc = [] then go rest [] else acc.reverse :: go rest []
    | c :: rest, acc => go rest (c :: acc)
  go s []

/-- Source `std::filesystem::weakly_canonical` on a symlink-free tree: lexical
normalization (drop `.`, resolve `..` against the accumulated prefix). -/
def canonComponents : HostPath → HostPath → HostPath
  | acc, [] => acc
  | acc, c :: rest =>
    if c = [] ∨ c = ['.'] then canonComponents acc rest
    else if c = ['.', '.'] then canonComponents acc.dropLast rest
    else canonComponents (acc ++ [c]) rest

/-- Source `std::mismatch(host.begin(), host.end(), canonical.begin(),
canonical.end())` followed by the `end == hostCanonical.end()` test. -/
def mismatchHostEnds : HostPath → HostPath → Bool
  | [], _ => true
  | _ :: _, [] => false
  | h :: hs, c :: cs => if h = c then mismatchHostEnds hs cs else false

/-- Source `WeaR_VFS::isPathSafe`: canonicalize, then accept iff **any** mount's
host root is a component prefix of the canonical result. -/
def isPathSafe (mounts : MountTable) (p : HostPath) : Bool :=
  let canonical := canonComponents [] p
  mounts.any fun mh => mismatchHostEnds mh.2 canonical

/-- Source `WeaR_VFS::resolvePath`: longest-prefix mount selection, append the
remainder, reject via `isPathSafe`; empty path = failure. -/
def resolvePath (mounts : MountTable) (ps4Path : List Char) : HostPath :=
  let normalized := normalizePath ps4Path
  let best := selectMount mounts normalized
  if best.1 = [] then []
  else
    let relativePath := stripLeadingSlash (normalized.drop best.1.length)
    let resolved := best.2 ++ splitOnSlash relativePath
    if isPathSafe mounts resolved then resolved else []

/-- An open-file-table entry (`FileHandle`; the `fstream` is abstracted
by the `HostFS` oracle below). -/
structure FileHandle where
  hostPath : HostPath
  flags : Nat
  isDirectory : Bool
deriving DecidableEq, Repr

/-- Host-filesystem queries `openFile` makes
(`std::filesystem::is_directory`, `std::filesystem::exists`, and whether
the `std::fstream` constructor succeeds). -/
structure HostFS where
  fsExists : HostPath → Bool
  fsIsDirectory : HostPath → Bool
  fsOpenOk : HostPath → Bool

/-- Source `WeaR_VFS::openFile` (sequential semantics; `mode` is ignored as in
the source).  Returns the `int32_t` result together with the open-file
table and the `m_nextFd` counter after the call — `allocateFd` is only
reached on the success paths. -/
def openFile (hfs : HostFS) (mounts : MountTable)
    (files : List (Nat × FileHandle)) (nextFd : Nat)
    (ps4Path : List Char) (flags mode : Nat) :
    Int × List (Nat × FileHandle) × Nat :=
  let _ := mode
  let hostPath := resolvePath mounts ps4Path
  if hostPath = [] then (SCE_ERROR_ENOENT, files, nextFd)
  else if flags &&& O_DIRECTORY ≠ 0 then
    if hfs.fsIsDirectory hostPath = false then (SCE_ERROR_ENOENT, files, nextFd)
    else ((nextFd : Int), files ++ [(nextFd, ⟨hostPath, flags, true⟩)], nextFd + 1)
  else if flags &&& O_CREAT = 0 ∧ hfs.fsExists hostPath = false then
    (SCE_ERROR_ENOENT, files, nextFd)
  else if hfs.fsOpenOk hostPath = false then
    (SCE_ERROR_EACCES, files, nextFd)
  else ((nextFd : Int), files ++ [(nextFd, ⟨hostPath, flags, false⟩)], nextFd + 1)

/-! ## Package loader — `src/Loader/WeaR_PkgLoader.{h,cpp}`

`PkgEntry` values are post-byteswap (as `loadPackage` stores them); the
package file is a total byte function plus its size, so the
already-validated in-bounds reads cannot hit EOF. -/

structure PkgEntry where
  id : Nat
  filenameOffset : Nat := 0
  flags1 : Nat := 0
  flags2 : Nat := 0
  dataOffset : Nat
  dataSize : Nat
deriving DecidableEq, Repr

/-- The distinct `std::unexpected` messages of the extraction paths. -/
inductive PkgError where
  | entryNotFound
  | offsetBeyondFile
  | zeroSize
  | sizeTooLarge
  | noEntries
  | noValidEntries
deriving DecidableEq, Repr

/-- Source `WeaR_PkgLoader::extractEntry`: find the first entry with the id,
validate the offset, reject zero sizes, sanitize the size against the
remaining file bytes, reject > 2 GiB, read. -/
def extractEntry (entries : List PkgEntry) (fileSize : Nat)
    (fileData : Nat → Nat) (entryId : Nat) : Except PkgError (List Nat) :=
  match entries.find? (fun e => e.id == entryId) with
  | none => .error .entryNotFound
  | some targetEntry =>
    if targetEntry.dataOffset ≥ fileSize then .error .offsetBeyondFile
    else
      let maxReadable := fileSize - targetEntry.dataOffset
      let requestedSize := targetEntry.dataSize
      if requestedSize = 0 then .error .zeroSize
      else
        let finalSize :=
          if requestedSize > maxReadable then maxReadable else requestedSize
        if finalSize > 2 * 1024 * 1024 * 1024 then .error .sizeTooLarge
        else
          .ok ((List.range finalSize).map fun i =>
            fileData (targetEntry.dataOffset + i))

/-- The effective size the fallback scan computes for an entry: 0 for a
skipped entry (offset at or past the file size), otherwise
`min(claimed_size, file_size − offset)`. -/
def pkgEffectiveSize (fileSize : Nat) (e : PkgEntry) : Nat :=
  if e.dataOffset ≥ fileSize then 0 else min e.dataSize (fileSize - e.dataOffset)

/-- One iteration of the fallback scan in `WeaR_PkgLoader::extractEboot`:
skip invalid offsets, keep the entry with the strictly largest positive
effective size (first one wins ties). -/
def largestStep (fileSize : Nat) (acc : Option PkgEntry × Nat)
    (entry : PkgEntry) : Option PkgEntry × Nat :=
  if entry.dataOffset ≥ fileSize then acc
  else
    let maxReadable := fileSize - entry.dataOffset
    let effectiveSize := min entry.dataSize maxReadable
    if 0 < effectiveSize ∧ acc.2 < effectiveSize then (some entry, effectiveSize)
    else acc

/-- The whole fallback scan (`largestEntry` / `maxSize` accumulator). -/
def largestValidEntry (entries : List PkgEntry) (fileSize : Nat) :
    Option PkgEntry × Nat :=
  entries.foldl (largestStep fileSize) (none, 0)

/-- Source `WeaR_PkgLoader::extractEboot`: try entry id `0x1000`; on any
failure fall back to the largest valid entry. -/
def extractEboot (entries : List PkgEntry) (fileSize : Nat)
    (fileData : Nat → Nat) : Except PkgError (List Nat) :=
  match extractEntry entries fileSize fileData 0x1000 with
  | .ok data => .ok data
  | .error _ =>
    if entries.isEmpty then .error .noEntries
    else
      match (largestValidEntry entries fileSize).1 with
      | none => .error .noValidEntries
      | some largestEntry => extractEntry entries fileSize fileData largestEntry.id

/-! ## Concrete fixtures used by the claim theorems -/

/-- A guest buffer at `0x500000` holding one Type-3 `INDIRECT_BUFFER`
(0x3F) packet whose payload points back at the buffer itself with its own
size (4 dwords): header `3<<30 | 2<<16 | 0x3F<<8`, then address-low,
address-high, size. -/
def selfBufMem : Mem :=
  (writeBytes Mem.zeroed 0x500000
    (le32 (3 * 2^30 + 2 * 2^16 + 0x3F * 2^8) ++
     le32 0x500000 ++ le32 0 ++ le32 4)).getD Mem.zeroed

/-- The scenario-S3 buffer at `0x600000`:
`[header(type 3, opcode 0x2D, count 1), 128, 0]`. -/
def drawBufMem : Mem :=
  (writeBytes Mem.zeroed 0x600000
    (le32 (3 * 2^30 + 1 * 2^16 + 0x2D * 2^8) ++ le32 128 ++ le32 0)).getD Mem.zeroed

/-- A machine whose CPU state is already `Halted`, with a NOP (`0x90`) at
the instruction pointer. -/
def haltedNopMachine : Machine :=
  { cpu := .halted,
    ctx := { WeaR_Context.reset with RIP := 0x400000 },
    mem := (writeBytes Mem.zeroed 0x400000 [0x90]).getD Mem.zeroed,
    dsp := .init }

/-- A running machine whose program is `HLT; NOP; NOP`. -/
def hltThenNopsMachine : Machine :=
  { cpu := .running,
    ctx := { WeaR_Context.reset with RIP := 0x400000 },
    mem := (writeBytes Mem.zeroed 0x400000 [0xF4, 0x90, 0x90]).getD Mem.zeroed,
    dsp := .init }

/-- A machine with `RAX = 4` (sys_write) about to execute
`48 BE imm64` (x86-64: MOV RSI, 0x400200) followed by SYSCALL, with the
BIOS boot string placed at `0x400200`. -/
def movRsiMachine : Machine :=
  { cpu := .running,
    ctx := { WeaR_Context.reset.setGPR 0 4 with RIP := 0x400000 },
    mem := ((writeBytes Mem.zeroed 0x400000
              ([0x48, 0xBE] ++ le64 0x400200 ++ [0x0F, 0x05])).bind fun m =>
            writeBytes m 0x400200 (bootMsgBytes ++ [0])).getD Mem.zeroed,
    dsp := .init }

/-- A context whose `RAX` holds the unregistered syscall number 999. -/
def ctx999 : WeaR_Context := WeaR_Context.reset.setGPR 0 999

/-- Mount table with two mounts under a common parent:
`/a → /h/a` and `/b → /h/b` (in `std::map` key order). -/
def twoMounts : MountTable :=
  [(['/', 'a'], [['h'], ['a']]), (['/', 'b'], [['h'], ['b']])]

/-- The guest path `/a/../b/x`, which escapes mount `/a`'s host root but
lands inside mount `/b`'s host root. -/
def crossPath : List Char := ['/', 'a', '/', '.', '.', '/', 'b', '/', 'x']

/-- Mount table of scenario S4: `/app0 → /tmp/game`. -/
def app0Mounts : MountTable :=
  [(['/', 'a', 'p', 'p', '0'], [['t','m','p'], ['g','a','m','e']])]

/-- The guest path `/app0/../../etc/passwd` of scenario S4. -/
def escapePath : List Char :=
  ['/','a','p','p','0','/','.','.','/','.','.','/','e','t','c','/','p','a','s','s','w','d']

/-- The scenario-S2 package entries: ids 0x1002/0x1003/0x1004 with sizes
10/4096/128 at valid offsets in a 0x2000-byte file, and no 0x1000. -/
def pkgS2entries : List PkgEntry :=
  [{ id := 0x1002, dataOffset := 0x200, dataSize := 10 },
   { id := 0x1003, dataOffset := 0x800, dataSize := 4096 },
   { id := 0x1004, dataOffset := 0x1A00, dataSize := 128 }]

/-- The scenario-S2 entry the fallback must choose. -/
def pkgEntry1003 : PkgEntry := { id := 0x1003, dataOffset := 0x800, dataSize := 4096 }

/-- Byte content of the scenario-S2 package file. -/
def pkgS2data : Nat → Nat := fun i => i % 256

/-! ## Helper lemmas -/

theorem pcbAux_succ (n : Nat) (mem : Mem) (a s o : Nat) (g : GpuState)
    (q : RenderQueue) :
    pcbAux (n + 1) mem a s o g q = pcbGo (pcbAux n mem) mem a s o g q := by
  simp only [pcbAux]

theorem pcbGo_selfbuf (f : Nat → Nat → Nat → GpuState → RenderQueue → PcbResult)
    (g : GpuState) (q : RenderQueue) :
    pcbGo f selfBufMem 0x500000 4 0 g q =
      match f 0x500000 4 0 g q with
      | .ok g' q' => f 0x500000 4 4 g' q'
      | r => r := by
  with_unfolding_all rfl

theorem isPathSafe_mem (mounts : MountTable) (r : HostPath)
    (h : isPathSafe mounts r = true) :
    ∃ mh ∈ mounts, mismatchHostEnds mh.2 (canonComponents [] r) = true := by
  unfold isPathSafe at h
  simpa using List.any_eq_true.mp h

theorem resolvePath_safe (mounts : MountTable) (p : List Char)
    (h : resolvePath mounts p ≠ []) :
    isPathSafe mounts (resolvePath mounts p) = true := by
  simp only [resolvePath] at h ⊢
  split_ifs at h ⊢ with hc1 hc2
  · exact absurd rfl h
  · exact hc2
  · exact absurd rfl h

theorem largestStep_eq_or (fs : Nat) (acc : Option PkgEntry × Nat) (e : PkgEntry) :
    largestStep fs acc e = acc ∨
    (largestStep fs acc e = (some e, pkgEffectiveSize fs e) ∧
      acc.2 < pkgEffectiveSize fs e ∧ 0 < pkgEffectiveSize fs e) := by
  simp only [largestStep, pkgEffectiveSize]
  split_ifs with h1 h2
  · exact Or.inl rfl
  · exact Or.inr ⟨rfl, h2.2, h2.1⟩
  · exact Or.inl rfl

theorem largestStep_snd_le (fs : Nat) (acc : Option PkgEntry × Nat) (e : PkgEntry) :
    acc.2 ≤ (largestStep fs acc e).2 ∧
    pkgEffectiveSize fs e ≤ (largestStep fs acc e).2 := by
  simp only [largestStep, pkgEffectiveSize]
  split_ifs with h1 h2
  · exact ⟨le_refl _, Nat.zero_le _⟩
  · exact ⟨Nat.le_of_lt h2.2, le_refl _⟩
  · refine ⟨le_refl _, ?_⟩
    omega

theorem largestFold_spec (fs : Nat) :
    ∀ (l : List PkgEntry) (acc : Option PkgEntry × Nat),
      (∀ e0, acc.1 = some e0 → acc.2 = pkgEffectiveSize fs e0 ∧ 0 < acc.2) →
      (∀ e0, (l.foldl (largestStep fs) acc).1 = some e0 →
          (l.foldl (largestStep fs) acc).2 = pkgEffectiveSize fs e0 ∧
          0 < (l.foldl (largestStep fs) acc).2 ∧ (e0 ∈ l ∨ acc.1 = some e0)) ∧
      ((l.foldl (largestStep fs) acc).1 = none →
          l.foldl (largestStep fs) acc = acc) ∧
      acc.2 ≤ (l.foldl (largestStep fs) acc).2 ∧
      (∀ e1, e1 ∈ l → pkgEffectiveSize fs e1 ≤ (l.foldl (largestStep fs) acc).2) := by
  intro l
  induction l with
  | nil =>
    intro acc hacc
    refine ⟨?_, fun _ => rfl, le_refl _, ?_⟩
    · intro e0 h0
      exact ⟨(hacc e0 h0).1, (hacc e0 h0).2, Or.inr h0⟩
    · intro e1 h1
      simp at h1
  | cons e t ih =>
    intro acc hacc
    simp only [List.foldl_cons]
    have hinv : ∀ e0, (largestStep fs acc e).1 = some e0 →
        (largestStep fs acc e).2 = pkgEffectiveSize fs e0 ∧
        0 < (largestStep fs acc e).2 := by
      intro e0 h0
      rcases largestStep_eq_or fs acc e with hc | ⟨hc, hlt, hpos⟩
      · rw [hc] at h0 ⊢
        exact ⟨(hacc e0 h0).1, (hacc e0 h0).2⟩
      · rw [hc] at h0 ⊢
        simp at h0
        subst h0
        exact ⟨rfl, hpos⟩
    obtain ⟨ha, hb, hc2, hd⟩ := ih (largestStep fs acc e) hinv
    refine ⟨?_, ?_, ?_, ?_⟩
    · intro e0 h0
      obtain ⟨hx, hy, hmem⟩ := ha e0 h0
      refine ⟨hx, hy, ?_⟩
      rcases hmem with hm | hm
      · exact Or.inl (List.mem_cons_of_mem _ hm)
      · rcases largestStep_eq_or fs acc e with hcs | ⟨hcs, _, _⟩
        · rw [hcs] at hm
          exact Or.inr hm
        · rw [hcs] at hm
          simp at hm
          subst hm
          exact Or.inl (List.mem_cons_self _ _)
    · intro h0
      have hkeep := hb h0
      rw [hkeep] at h0 ⊢
      rcases largestStep_eq_or fs acc e with hcs | ⟨hcs, _, _⟩
      · rw [hcs]
      · rw [hcs] at h0
        simp at h0
    · exact le_trans (largestStep_snd_le fs acc e).1 hc2
    · intro e1 h1
      rcases List.mem_cons.mp h1 with rfl | hm
      · exact le_trans (largestStep_snd_le fs acc e1).2 hc2
      · exact hd e1 hm

/-! ## Claim theorems -/

/-- C1: the claim asserts the context's sixteen GPRs are laid out in
x86-64 register-encoding order (index 1 = RCX, …, 6 = RSI) and that
executing `48 BE imm64` writes the register the syscall dispatcher reads
as argument 2 (field `RSI`).  The source union instead declares
`RAX, RBX, RCX, RDX, RSI, RDI, RBP, RSP, R8..R15`, so `GPR[6]` is the
field `RBP`: with `RAX = 4` (sys_write), executing `48 BE 00 02 40 …`
then SYSCALL leaves field `RSI` at 0 and puts the immediate in field
`RBP`, and the write handler sees buffer pointer 0 — no `[fd1]` log
entry is produced. -/
theorem c1_mov_rsi_misroutes :
    ((cpuThreadSteps 0 2 movRsiMachine).map fun m =>
      (m.ctx.RBP, m.ctx.RSI, m.dsp.logLines)) = some (0x400200, 0, []) ∧
    (∀ c : WeaR_Context,
      c.RBX = c.GPR 1 ∧ c.RCX = c.GPR 2 ∧ c.RSI = c.GPR 4 ∧ c.RBP = c.GPR 6) := by
  refine ⟨by decide, fun c => ⟨rfl, rfl, rfl, rfl⟩⟩

/-- C2: the claim asserts that running the internal-BIOS payload makes
the log contain the boot line.  The interpreter has no handler for
opcode `0xC7` (the payload's `MOV RAX/RDI/RDX` encoding), skips those
bytes as unknown opcodes, and reaches the first SYSCALL with `RAX = 0`;
syscall 0 is unregistered, so the run only ever logs
`Unimplemented syscall … (0)` — after 20 steps the log is exactly that
entry, and through 100 steps every entry is an `unimplemented 0` and no
`sys_write`-to-fd log entry exists. -/
theorem c2_internal_bios_never_logs_boot_line :
    (biosBoot.map fun r => r.2.2) = some 0x400000 ∧
    ((cpuThreadSteps 0 20 biosMachine).map fun m => m.dsp.logLines) =
      some [.unimplemented 0] ∧
    ((cpuThreadSteps 0 100 biosMachine).map fun m =>
        m.dsp.logLines.all fun e =>
          match e with
          | .unimplemented 0 => true
          | _ => false) = some true := by
  refine ⟨by decide, by decide, by decide⟩

/-- C3: the claim asserts a nesting depth cap of 16 on
`INDIRECT_BUFFER` recursion, making parsing always terminate.
`handleIndirectBuffer` recurses with no depth tracking at all, so on the
self-referential indirect buffer `selfBufMem` the parse never finishes:
for every fuel bound the fuel-indexed embedding runs out of fuel. -/
theorem c3_indirect_buffer_no_depth_cap :
    ∀ (fuel : Nat) (g : GpuState) (q : RenderQueue),
      processCommandBuffer fuel selfBufMem 0x500000 4 g q = .fuelOut := by
  intro fuel
  induction fuel with
  | zero => intro g q; rfl
  | succ n ih =>
    intro g q
    have ih2 : ∀ (g : GpuState) (q : RenderQueue),
        pcbAux n selfBufMem 0x500000 4 0 g q = .fuelOut := ih
    show pcbAux (n + 1) selfBufMem 0x500000 4 0 g q = .fuelOut
    rw [pcbAux_succ, pcbGo_selfbuf, ih2 g q]

/-- C4: the claim asserts that in the `Halted` (or `Faulted`) state no
further instruction executes until reset.  `WeaR_Cpu::step` performs no
state check before fetching, and `cpuThreadMain` ignores the 0-cycle
return: a `step` on a Halted machine executes the NOP at `RIP`
(advancing it, with 1 cycle reported), and after `HLT` the thread loop
keeps executing the following instructions while the state is `Halted`. -/
theorem c4_step_executes_while_halted :
    ((step 0 haltedNopMachine).machine.map fun m => (m.cpu, m.ctx.RIP)) =
      some (.halted, 0x400001) ∧
    (step 0 haltedNopMachine).cycles = some 1 ∧
    ((cpuThreadSteps 0 3 hltThenNopsMachine).map fun m => (m.cpu, m.ctx.RIP)) =
      some (.halted, 0x400003) := by
  refine ⟨by decide, by decide, by decide⟩

/-- C5 (counterexample): dispatching the unregistered syscall number 999
twice produces **two** `unimplemented 999` log entries, refuting
"logged at most once per distinct number". -/
theorem c5_logged_once_counterexample :
    ((dispatch 0 DispatchState.init ctx999 Mem.zeroed).dspState.bind fun st1 =>
      (dispatch 0 st1 ctx999 Mem.zeroed).dspState.map fun st2 =>
        (st2.logLines, st2.unimplementedCalls)) =
      some ([.unimplemented 999, .unimplemented 999], 2) := by decide

/-- C5 (amended): for every syscall number with no registered handler,
`dispatch` increments the unimplemented counter, writes 0 into `RAX`,
and appends one log entry for the number on **every** invocation (the
source keeps no per-number deduplication). -/
theorem c5_unimplemented_logged_every_call :
    ∀ (fuel : Nat) (st : DispatchState) (ctx : WeaR_Context) (mem : Mem),
      defaultHandlers fuel ctx.RAX = none →
      dispatch fuel st ctx mem =
        .ok (ctx.setGPR 0 0) mem
          (pushLog
            { st with totalCalls := st.totalCalls + 1,
                      unimplementedCalls := st.unimplementedCalls + 1 }
            (.unimplemented ctx.RAX)) := by
  intro fuel st ctx mem h
  simp only [dispatch]
  rw [h]

/-- C5 witness: the amended theorem applied to syscall number 999 from
the initial dispatcher state. -/
theorem c5_unimplemented_logged_every_call_witness :
    dispatch 0 DispatchState.init ctx999 Mem.zeroed =
      .ok (ctx999.setGPR 0 0) Mem.zeroed
        (pushLog
          { DispatchState.init with totalCalls := 1, unimplementedCalls := 1 }
          (.unimplemented ctx999.RAX)) :=
  c5_unimplemented_logged_every_call 0 DispatchState.init ctx999 Mem.zeroed rfl

/-- C6 (counterexample): with mounts `/a → /h/a` and `/b → /h/b`, the
guest path `/a/../b/x` selects mount `/a` (longest matching prefix), its
canonicalized resolution `/h/b/x` escapes `/a`'s host root `/h/a`, yet
resolution **succeeds** (nonempty result), because `isPathSafe` accepts
any mount's host root — refuting "resolution fails whenever the
canonicalization escapes the selected mount's host root". -/
theorem c6_cross_mount_counterexample :
    selectMount twoMounts (normalizePath crossPath) =
      (['/', 'a'], [['h'], ['a']]) ∧
    resolvePath twoMounts crossPath ≠ [] ∧
    mismatchHostEnds [['h'], ['a']]
      (canonComponents [] (resolvePath twoMounts crossPath)) = false := by
  refine ⟨by decide, by decide, by decide⟩

/-- C6 (amended): a successful resolution is only guaranteed to land
inside the host root of **some** mount of the table — not necessarily
the mount selected for the path: whenever `resolvePath` returns a
nonempty path, some mount's host root is a component prefix of its
canonicalization. -/
theorem c6_resolve_lands_in_some_mount :
    ∀ (mounts : MountTable) (p : List Char),
      resolvePath mounts p ≠ [] →
      ∃ mh ∈ mounts,
        mismatchHostEnds mh.2 (canonComponents [] (resolvePath mounts p)) = true := by
  intro mounts p h
  exact isPathSafe_mem mounts _ (resolvePath_safe mounts p h)

/-- C6 witness: the amended theorem applied to the two-mount table and
the cross-mount path. -/
theorem c6_resolve_lands_in_some_mount_witness :
    ∃ mh ∈ twoMounts,
      mismatchHostEnds mh.2
        (canonComponents [] (resolvePath twoMounts crossPath)) = true :=
  c6_resolve_lands_in_some_mount twoMounts crossPath (by decide)

/-- C7: the package-extraction fallback.  (1) When the fallback scan
returns an entry, it is an entry of the table with positive effective
size maximal among all entries (effective = 0 for skipped offsets,
else `min(claimed, file_size − offset)`); (2) when it returns none,
every entry has effective size 0 (so `extractEboot` rejects);
(3) an entry whose sanitized size exceeds 2 GiB is rejected as
corruption; (4) on the S2 package (ids 0x1002/0x1003/0x1004, sizes
10/4096/128, no 0x1000) extraction chooses entry 0x1003 and returns its
4096-byte payload. -/
theorem c7_pkg_fallback_extraction :
    (∀ (entries : List PkgEntry) (fs : Nat) (e : PkgEntry),
        (largestValidEntry entries fs).1 = some e →
        e ∈ entries ∧ 0 < pkgEffectiveSize fs e ∧
          ∀ e1 ∈ entries, pkgEffectiveSize fs e1 ≤ pkgEffectiveSize fs e) ∧
    (∀ (entries : List PkgEntry) (fs : Nat),
        (largestValidEntry entries fs).1 = none →
        ∀ e ∈ entries, pkgEffectiveSize fs e = 0) ∧
    (∀ (entries : List PkgEntry) (fs : Nat) (fd : Nat → Nat) (entryId : Nat)
        (e : PkgEntry),
        entries.find? (fun x => x.id == entryId) = some e →
        ¬ e.dataOffset ≥ fs → e.dataSize ≠ 0 →
        2 * 1024 * 1024 * 1024 < min e.dataSize (fs - e.dataOffset) →
        extractEntry entries fs fd entryId = .error .sizeTooLarge) ∧
    extractEboot pkgS2entries 0x2000 pkgS2data =
      .ok ((List.range 4096).map fun i => pkgS2data (0x800 + i)) := by
  refine ⟨?_, ?_, ?_, rfl⟩
  · intro entries fs e h
    obtain ⟨ha, _, _, hd⟩ :=
      largestFold_spec fs entries (none, 0) (by intro e0 h0; simp at h0)
    obtain ⟨h2, h3, hmem⟩ := ha e h
    refine ⟨?_, ?_, ?_⟩
    · rcases hmem with hm | hm
      · exact hm
      · simp at hm
    · rw [← h2]; exact h3
    · intro e1 he1
      rw [← h2]; exact hd e1 he1
  · intro entries fs h
    obtain ⟨_, hb, _, hd⟩ :=
      largestFold_spec fs entries (none, 0) (by intro e0 h0; simp at h0)
    intro e he
    have hkeep := hb h
    have h4 := hd e he
    rw [hkeep] at h4
    omega
  · intro entries fs fd entryId e hfind hoff hsz hbig
    obtain ⟨hb1, hb2⟩ := lt_min_iff.mp hbig
    unfold extractEntry
    simp only [hfind, if_neg hoff, if_neg hsz]
    have hfin : (if e.dataSize > fs - e.dataOffset then fs - e.dataOffset
        else e.dataSize) > 2 * 1024 * 1024 * 1024 := by
      split_ifs <;> omega
    rw [if_pos hfin]

/-- C7 witness: the fallback-maximality part applied to the S2 package
and its 0x1003 entry. -/
theorem c7_pkg_fallback_extraction_witness :
    pkgEntry1003 ∈ pkgS2entries ∧ 0 < pkgEffectiveSize 0x2000 pkgEntry1003 ∧
      ∀ e1 ∈ pkgS2entries,
        pkgEffectiveSize 0x2000 e1 ≤ pkgEffectiveSize 0x2000 pkgEntry1003 :=
  c7_pkg_fallback_extraction.1 pkgS2entries 0x2000 pkgEntry1003 (by decide)

/-- C8: with only `/app0 → /tmp/game` mounted, opening
`/app0/../../etc/passwd` with `O_RDONLY` fails with `SCE_ERROR_ENOENT`
(the canonicalized resolution `/etc/passwd` is outside every mount's
host root, so `resolvePath` returns the empty path), and both the
open-file table and the next-descriptor counter are returned unchanged —
for every host filesystem and every starting table/counter. -/
theorem c8_vfs_escape_blocked :
    ∀ (hfs : HostFS) (files : List (Nat × FileHandle)) (nextFd : Nat),
      openFile hfs app0Mounts files nextFd escapePath 0 0 =
        (SCE_ERROR_ENOENT, files, nextFd) := by
  intro hfs files nextFd
  rfl

/-- C9: parsing the two-packet-word buffer
`[header(type 3, opcode 0x2D, count 1), 128, 0]` with the tracked GPU
state at its defaults emits exactly one DrawAuto command with
`vertexCount = 128` and `instanceCount = 1` into the render queue, whose
size then equals 1. -/
theorem c9_draw_index_auto_emission :
    processCommandBuffer 10 drawBufMem 0x600000 3 {} [] =
      .ok {} (renderQueuePush []
        { type := .drawAuto, vertexCount := 128, instanceCount := 1 }) ∧
    renderQueueSize (renderQueuePush []
        { type := .drawAuto, vertexCount := 128, instanceCount := 1 }) = 1 := by
  refine ⟨by decide, rfl⟩

/-- C10: block round-trip through guest memory — for every byte sequence
`b` and address `a` whose translated offset plus `|b|` stays within the
8 GiB arena, `writeBlock` then `readBlock` returns exactly `b`; and
every `a` with `a + |b| ≤ 8 GiB` satisfies that translated bound. -/
theorem c10_write_read_block_roundtrip :
    (∀ (m : Mem) (a : Nat) (b : List Nat),
        translateAddress a + b.length ≤ MEMORY_SIZE →
        ((m.writeBlock a b).bind fun m' => m'.readBlock a b.length) = some b) ∧
    (∀ (a len : Nat), a + len ≤ MEMORY_SIZE →
        translateAddress a + len ≤ MEMORY_SIZE) :=
  ⟨writeBlock_readBlock, translateAddress_le⟩

/-- C10 witness: the round-trip at address `0x400000` with `[1, 2, 3]`. -/
theorem c10_write_read_block_roundtrip_witness :
    ((Mem.zeroed.writeBlock 0x400000 [1, 2, 3]).bind fun m' =>
      m'.readBlock 0x400000 3) = some [1, 2, 3] :=
  c10_write_read_block_roundtrip.1 Mem.zeroed 0x400000 [1, 2, 3] (by decide)

end WeaRemu
